import Mathlib

/-
Verification development for the ride-tracking app's GPS/sync core.

The embedding below follows the client sources:
  client/src/lib/utils.ts            (haversineDistance, calculateDistance)
  client/src/lib/gpsTracker.ts and its richer variant (GPSTracker: filtering,
    throttling, pause/resume, start guard, duration, average speed)
  client/src/lib/indexedDB.ts        (local ride store, markRideAsUploaded)
  client/src/contexts/RideContext.tsx (syncOfflineRides, saveRide)
  client/src/pages/MapPage.tsx and its richer variant (recording session:
    tick counter, distance accumulation, confirmStopRide)

JavaScript numbers are modelled as real numbers; `null`/`undefined` fields as
`Option`.  Callbacks are modelled by returning the emitted value.
-/

namespace RideApp

/-- A GPS coordinate, mirroring `GeolocationCoordinate` in utils.ts.
Optional/nullable fields become `Option ℝ`. -/
structure Coordinate where
  latitude : ℝ
  longitude : ℝ
  timestamp : ℝ
  altitude : Option ℝ
  speed : Option ℝ
  heading : Option ℝ
  accuracy : Option ℝ
  altitudeAccuracy : Option ℝ

/-- JavaScript's `Math.atan2 (y, x)` (ignoring signed zeros, which have no
counterpart in `ℝ`). -/
noncomputable def atan2 (y x : ℝ) : ℝ :=
  if 0 < x then Real.arctan (y / x)
  else if x < 0 then
    (if 0 ≤ y then Real.arctan (y / x) + Real.pi else Real.arctan (y / x) - Real.pi)
  else
    (if 0 < y then Real.pi / 2 else if y < 0 then -(Real.pi / 2) else 0)

/-- The intermediate value `a` of the haversine formula in
`haversineDistance` (utils.ts) and `GPSTracker.calculateDistance`:
`a = sin(Δφ/2)·sin(Δφ/2) + cos φ1 · cos φ2 · sin(Δλ/2)·sin(Δλ/2)` with
`φ = lat·π/180`, `Δφ = (lat2−lat1)·π/180`, `Δλ = (lon2−lon1)·π/180`. -/
noncomputable def haversineA (lat1 lon1 lat2 lon2 : ℝ) : ℝ :=
  Real.sin ((lat2 - lat1) * Real.pi / 180 / 2) * Real.sin ((lat2 - lat1) * Real.pi / 180 / 2) +
    Real.cos (lat1 * Real.pi / 180) * Real.cos (lat2 * Real.pi / 180) *
      (Real.sin ((lon2 - lon1) * Real.pi / 180 / 2) * Real.sin ((lon2 - lon1) * Real.pi / 180 / 2))

/-- `haversineDistance` (utils.ts): `R * c` with `R = 6371e3` meters and
`c = 2 * atan2(√a, √(1−a))`.  The identical formula appears as
`GPSTracker.calculateDistance` in the tracker variant. -/
noncomputable def haversineDistance (lat1 lon1 lat2 lon2 : ℝ) : ℝ :=
  6371000 *
    (2 * atan2 (Real.sqrt (haversineA lat1 lon1 lat2 lon2))
        (Real.sqrt (1 - haversineA lat1 lon1 lat2 lon2)))

/-- `calculateDistance` (utils.ts): sum of haversine distances between
consecutive coordinates (the source's `for (i = 1; i < len; i++)` loop). -/
noncomputable def calculateDistance : List Coordinate → ℝ
  | c1 :: c2 :: rest =>
      haversineDistance c1.latitude c1.longitude c2.latitude c2.longitude +
        calculateDistance (c2 :: rest)
  | _ => 0

theorem haversineA_symm (lat1 lon1 lat2 lon2 : ℝ) :
    haversineA lat1 lon1 lat2 lon2 = haversineA lat2 lon2 lat1 lon1 := by
  unfold haversineA
  have h1 : (lat1 - lat2) * Real.pi / 180 / 2 = -((lat2 - lat1) * Real.pi / 180 / 2) := by ring
  have h2 : (lon1 - lon2) * Real.pi / 180 / 2 = -((lon2 - lon1) * Real.pi / 180 / 2) := by ring
  rw [h1, h2]
  simp only [Real.sin_neg]
  ring

theorem haversineA_self (lat lon : ℝ) : haversineA lat lon lat lon = 0 := by
  unfold haversineA
  have h1 : (lat - lat) * Real.pi / 180 / 2 = 0 := by ring
  have h2 : (lon - lon) * Real.pi / 180 / 2 = 0 := by ring
  rw [h1, h2, Real.sin_zero]
  ring

/-- C6: for every pair of coordinates, the haversine distance function is
symmetric (`d(a,b) = d(b,a)`) and zero on the diagonal (`d(a,a) = 0`).  The
definition `haversineDistance` carries the angle-based formula with the Earth
radius constant `6371000` m and no ellipsoidal correction, exactly as in
utils.ts and the tracker's `calculateDistance`. -/
theorem haversine_symm_and_zero :
    (∀ lat1 lon1 lat2 lon2 : ℝ,
        haversineDistance lat1 lon1 lat2 lon2 = haversineDistance lat2 lon2 lat1 lon1) ∧
    (∀ lat lon : ℝ, haversineDistance lat lon lat lon = 0) := by
  constructor
  · intro lat1 lon1 lat2 lon2
    unfold haversineDistance
    rw [haversineA_symm lat1 lon1 lat2 lon2]
  · intro lat lon
    unfold haversineDistance
    rw [haversineA_self]
    have h0 : Real.sqrt 0 = 0 := Real.sqrt_zero
    have h1 : Real.sqrt (1 - 0) = 1 := by
      rw [sub_zero, Real.sqrt_one]
    rw [h0, h1]
    unfold atan2
    rw [if_pos (by norm_num : (0:ℝ) < 1)]
    rw [zero_div, Real.arctan_zero]
    ring

/-- `GPSTrackerOptions` of the tracker variant (part of the client library).
The two callback fields (`onPositionUpdate`, `onError`) are modelled by the
step function returning the emitted coordinate.  `pauseBetweenUpdates` is
stored already defaulted (`options.pauseBetweenUpdates || 0`), and the
optional `isAppleDevice` flag defaulted to `false`.  Note: there is no
accuracy-threshold field; the source never takes one. -/
structure GPSTrackerOptions where
  highAccuracy : Bool
  pauseBetweenUpdates : ℝ
  maximumAge : Option ℝ
  timeout : Option ℝ
  minDistance : Option ℝ
  isAppleDevice : Bool

/-- Mutable fields of a `GPSTracker` instance.  `watchAttached` stands for
`watchId !== null` (the geolocation subscription being attached). -/
structure TrackerState where
  isTracking : Bool
  watchAttached : Bool
  coordinates : List Coordinate
  lastUpdateTime : ℝ
  highestSpeed : ℝ
  wakeLock : Bool

namespace GPSTracker

/-- State of a tracker immediately after a successful `startTracking()`:
`coordinates = []`, `highestSpeed = 0`, `lastUpdateTime = 0`, tracking with
the watch attached and the wake lock requested. -/
noncomputable def initTrackerState : TrackerState :=
  { isTracking := true, watchAttached := true, coordinates := [],
    lastUpdateTime := 0, highestSpeed := 0, wakeLock := true }

/-- `GPSTracker.startTracking()`.  `geolocationAvailable` models
`navigator.geolocation` being present (when absent the method reports an
error through `onError` and returns `false` without touching the state). -/
noncomputable def startTracking (geolocationAvailable : Bool) (s : TrackerState) :
    TrackerState × Bool :=
  if s.isTracking then (s, false)
  else if !geolocationAvailable then (s, false)
  else ({ s with
            coordinates := []
            highestSpeed := 0
            lastUpdateTime := 0
            isTracking := true
            wakeLock := true
            watchAttached := true }, true)

/-- `GPSTracker.pauseTracking()`: returns early unless tracking with an
attached watch; otherwise clears the watch (detaches delivery) and nothing
else. -/
def pauseTracking (s : TrackerState) : TrackerState :=
  if !s.isTracking || !s.watchAttached then s else { s with watchAttached := false }

/-- `GPSTracker.resumeTracking()`: returns early unless tracking with a
detached watch; otherwise re-attaches the watch. -/
def resumeTracking (s : TrackerState) : TrackerState :=
  if !s.isTracking || s.watchAttached then s else { s with watchAttached := true }

/-- The accuracy rejection test of `handlePositionUpdate`: when the fix
reports an accuracy radius, reject it if the radius exceeds the hard-coded
threshold — 100 m when the device looks like iOS (`isAppleDevice` option or
user-agent test), 50 m otherwise. -/
def accuracyRejected (o : GPSTrackerOptions) (uaIsIOS : Bool) (p : Coordinate) : Prop :=
  match p.accuracy with
  | some acc => (if (o.isAppleDevice || uaIsIOS : Bool) then (100 : ℝ) else 50) < acc
  | none => False

/-- The minimum-movement rejection test of `handlePositionUpdate`: active
only when the `minDistance` option is set and truthy (non-zero) and a
previous coordinate exists; rejects the fix when the haversine distance
from the last recorded coordinate is below `minDistance`. -/
noncomputable def minDistanceRejected (o : GPSTrackerOptions) (coords : List Coordinate)
    (p : Coordinate) : Prop :=
  match o.minDistance, coords.getLast? with
  | some md, some lastCoord =>
      md ≠ 0 ∧
        haversineDistance lastCoord.latitude lastCoord.longitude p.latitude p.longitude < md
  | _, _ => False

open Classical in
/-- `GPSTracker.handlePositionUpdate` of the tracker variant.  Inputs: the
options, whether the user agent looks like iOS (`/iPad|iPhone|iPod/` test),
the arrival clock `Date.now()`, the current state and the raw fix (whose
fields coincide with the coordinate the handler would construct from it).
Returns the new state and the coordinate passed to `onPositionUpdate`, if
any.  Filter order as in the source: throttle (against `lastUpdateTime`,
which is set for every non-throttled fix, accepted or not), then the
hard-coded accuracy threshold (100 m iOS / 50 m otherwise) when `accuracy`
is defined, then the `minDistance` check (skipped when the option is absent
or `0`, or no coordinate has been recorded yet). -/
noncomputable def handlePositionUpdate (o : GPSTrackerOptions) (uaIsIOS : Bool)
    (now : ℝ) (s : TrackerState) (p : Coordinate) : TrackerState × Option Coordinate :=
  if 0 < o.pauseBetweenUpdates ∧ now - s.lastUpdateTime < o.pauseBetweenUpdates then
    (s, none)
  else
    let s1 : TrackerState := { s with lastUpdateTime := now }
    if accuracyRejected o uaIsIOS p then (s1, none)
    else if minDistanceRejected o s1.coordinates p then (s1, none)
    else
      let s2 : TrackerState :=
        match p.speed with
        | some sp => if s1.highestSpeed < sp then { s1 with highestSpeed := sp } else s1
        | none => s1
      ({ s2 with coordinates := s2.coordinates ++ [p] }, some p)

/-- `GPSTracker.getDuration()`: 0 for fewer than two coordinates, otherwise
`Math.floor((last.timestamp - first.timestamp) / 1000)`. -/
noncomputable def getDuration : List Coordinate → ℤ
  | [] => 0
  | [_] => 0
  | c :: c2 :: rest =>
      ⌊(((c2 :: rest).getLast (List.cons_ne_nil c2 rest)).timestamp - c.timestamp) / 1000⌋

/-- `GPSTracker.getAverageSpeed()`: map coordinates to their `speed`, keep
the non-null/non-undefined readings (the `.filter` with a type guard; the
`getD 0` extraction never sees `none`), return 0 when there are none and the
arithmetic mean otherwise (`reduce (+) 0 / length`). -/
noncomputable def getAverageSpeed (coords : List Coordinate) : ℝ :=
  let speedReadings :=
    ((coords.map fun c => c.speed).filter fun sp => sp.isSome).map fun sp => sp.getD 0
  if speedReadings.length = 0 then 0
  else (speedReadings.foldl (fun acc sp => acc + sp) 0) / (speedReadings.length : ℝ)

end GPSTracker

/-- Run a tracker from a given state over a list of `(arrival time, fix)`
events delivered by the platform watch; returns the final state and the
list of `(arrival time, coordinate)` updates emitted to `onPositionUpdate`. -/
noncomputable def runTrackerFrom (o : GPSTrackerOptions) (ua : Bool) :
    TrackerState → List (ℝ × Coordinate) → TrackerState × List (ℝ × Coordinate)
  | s, [] => (s, [])
  | s, (t, c) :: es =>
      let r := GPSTracker.handlePositionUpdate o ua t s c
      let rest := runTrackerFrom o ua r.1 es
      (rest.1, (match r.2 with | some c2 => [(t, c2)] | none => []) ++ rest.2)

/-- A full recording run: deliver the events to a freshly started tracker. -/
noncomputable def runTracker (o : GPSTrackerOptions) (ua : Bool)
    (es : List (ℝ × Coordinate)) : TrackerState × List (ℝ × Coordinate) :=
  runTrackerFrom o ua GPSTracker.initTrackerState es

/-- The ride payload saved by `confirmStopRide` (MapPage) and sent to the
server by `saveRide`/`syncOfflineRides` — a `Ride` without `id` and
`isUploaded`. -/
structure RideData where
  title : String
  description : String
  distance : ℝ
  duration : ℕ
  startTime : ℝ
  endTime : ℝ
  maxSpeed : ℝ
  avgSpeed : ℝ
  userId : Option ℕ
  elevationGain : ℝ
  route : List Coordinate
  startLocation : String
  endLocation : String

/-- A ride record in the IndexedDB `rides` store (indexedDB.ts): the payload
plus the auto-assigned integer key `id` and the upload flag. -/
structure StoredRide where
  id : ℕ
  isUploaded : Bool
  data : RideData

/-- `getRideById` (indexedDB.ts): `store.get(id)`. -/
def getRideById (id : ℕ) (store : List StoredRide) : Option StoredRide :=
  store.find? fun r => r.id == id

/-- `updateRide` (indexedDB.ts): `store.put(ride)`, replacing the record
whose key equals `ride.id` (the store is keyed on `id`). -/
def updateRide (ride : StoredRide) (store : List StoredRide) : List StoredRide :=
  store.map fun r => if r.id == ride.id then ride else r

/-- `markRideAsUploaded` (indexedDB.ts): fetch the ride by id; when present,
set `isUploaded := true` and put it back; when absent, do nothing. -/
def markRideAsUploaded (id : ℕ) (store : List StoredRide) : List StoredRide :=
  match getRideById id store with
  | some ride => updateRide { ride with isUploaded := true } store
  | none => store

/-- `getNotUploadedRides` (indexedDB.ts): all rides with
`isUploaded = false` (the `isUploaded` secondary index). -/
def getNotUploadedRides (store : List StoredRide) : List StoredRide :=
  store.filter fun r => !r.isUploaded

/-- `syncOfflineRides` (RideContext.tsx), modelling the sweep the
Offline to Online transition triggers: get the not-yet-uploaded rides, and
for each one issue a `POST /api/rides` with its id- and flag-stripped
payload; on success mark that ride uploaded, on failure (the per-iteration
`catch`) leave the store untouched and continue with the next ride.
`ok r` tells whether the create request for `r` succeeds.  Returns the
final store and the list of issued create-request payloads. -/
def syncOfflineRides (ok : StoredRide → Bool) (store : List StoredRide) :
    List StoredRide × List RideData :=
  let notUploadedRides := getNotUploadedRides store
  (notUploadedRides.foldl
      (fun st r => if ok r then markRideAsUploaded r.id st else st) store,
    notUploadedRides.map fun r => r.data)

/-- Recording-session state held by the MapPage component.  `trackerCoords`
is the tracker's own `coordinates` array (returned by `getCoordinates()` and
persisted as the route); `coordinates` is the component's state list that
drives the incremental `distance`. -/
structure SessionState where
  trackerCoords : List Coordinate
  coordinates : List Coordinate
  duration : ℕ
  distance : ℝ
  currentSpeed : ℝ
  maxSpeed : ℝ
  startTime : ℝ
  isPaused : Bool
  isRecording : Bool

/-- Events hitting an active recording session: a one-second timer tick, an
accepted fix delivered by the tracker, and the pause/resume buttons. -/
inductive SessionEvent where
  | tick
  | fix (c : Coordinate)
  | pause
  | resume

namespace MapPage

/-- Session state right after `handleStartRide` succeeds. -/
noncomputable def initSession : SessionState :=
  { trackerCoords := [], coordinates := [], duration := 0, distance := 0,
    currentSpeed := 0, maxSpeed := 0, startTime := 0, isPaused := false,
    isRecording := true }

/-- One step of the recording session (MapPage):
`tick` is the `setInterval(1000)` body (`if (!isPaused) setDuration(d+1)`);
`pause`/`resume` are `handlePauseRide`/`handleResumeRide`;
`fix c` is `handlePositionUpdate` — append `c` to the component list, add
`calculateDistance([last, c])` when a previous coordinate exists, update
current/max speed when `c.speed` is non-null.  A fix cannot arrive while
paused (pausing detaches the watch), so the paused branch (the handler's
`if (isPaused) return`) leaves everything unchanged, including the
tracker's list. -/
noncomputable def sessionStep (s : SessionState) : SessionEvent → SessionState
  | .tick => if s.isPaused then s else { s with duration := s.duration + 1 }
  | .pause => { s with isPaused := true }
  | .resume => { s with isPaused := false }
  | .fix c =>
      if s.isPaused then s
      else
        { s with
            trackerCoords := s.trackerCoords ++ [c]
            coordinates := s.coordinates ++ [c]
            distance :=
              match s.coordinates.getLast? with
              | some lastCoord => s.distance + calculateDistance [lastCoord, c]
              | none => s.distance
            currentSpeed := match c.speed with | some sp => sp | none => s.currentSpeed
            maxSpeed :=
              match c.speed with
              | some sp => if s.maxSpeed < sp then sp else s.maxSpeed
              | none => s.maxSpeed }

/-- Run a recording session from the freshly started state. -/
noncomputable def runSession (es : List SessionEvent) : SessionState :=
  es.foldl sessionStep initSession

/-- `confirmStopRide` (MapPage): after stopping the tracker, build and save
the ride payload when `finalCoordinates.length > 0`; otherwise save nothing
(the caller sees the "No GPS data was recorded" notice, `none` here).
`avgSpeed` is `distance / (duration > 0 ? duration : 1)` and `duration` is
the ticking counter's value. -/
noncomputable def confirmStopRide (s : SessionState) (now : ℝ) : Option RideData :=
  if 0 < s.trackerCoords.length then
    some { title := "Ride"
           description := ""
           distance := s.distance
           duration := s.duration
           startTime := s.startTime
           endTime := now
           maxSpeed := s.maxSpeed
           avgSpeed := s.distance / (if 0 < s.duration then (s.duration : ℝ) else 1)
           userId := none
           elevationGain := 0
           route := s.trackerCoords
           startLocation := "Starting point"
           endLocation := "Ending point" }
  else none

/-- What the user is told when a ride stops. -/
inductive StopOutcome where
  | rideSaved
  | nothingRecorded
deriving DecidableEq

/-- `confirmStopRide` combined with `RideContext.saveRide`: when a payload
exists it is always written to the local store first (fresh key `nextId`,
`isUploaded := false`); when online one create request goes out, and on
success the local record is marked uploaded (on failure it stays unmarked
and the ride still counts as saved).  When no payload exists neither store
is touched, no request is issued, and the caller is told nothing was
recorded. -/
noncomputable def stopAndPersist (s : SessionState) (now : ℝ)
    (isOnline remoteOk : Bool) (store : List StoredRide) (nextId : ℕ) :
    List StoredRide × List RideData × StopOutcome :=
  match confirmStopRide s now with
  | none => (store, [], MapPage.StopOutcome.nothingRecorded)
  | some d =>
      let store1 := store ++ [{ id := nextId, isUploaded := false, data := d }]
      if isOnline then
        if remoteOk then (markRideAsUploaded nextId store1, [d], StopOutcome.rideSaved)
        else (store1, [d], StopOutcome.rideSaved)
      else (store1, [], StopOutcome.rideSaved)

end MapPage

/-- Specification-side projection for the display duration: the number of
`tick` events arriving while the session is not paused (the boolean tracks
the paused flag, the counter the accumulated seconds). -/
def countUnpausedTicksAux : Bool → ℕ → List SessionEvent → ℕ
  | _, n, [] => n
  | b, n, .tick :: es => countUnpausedTicksAux b (if b then n else n + 1) es
  | _, n, .pause :: es => countUnpausedTicksAux true n es
  | _, n, .resume :: es => countUnpausedTicksAux false n es
  | b, n, .fix _ :: es => countUnpausedTicksAux b n es

/-- Number of ticks of the one-second display counter over a whole session. -/
def countUnpausedTicks (es : List SessionEvent) : ℕ :=
  countUnpausedTicksAux false 0 es

/-! Concrete inputs used by the witness and counterexample theorems. -/

/-- A coordinate at the origin with the given timestamp, speed and accuracy. -/
noncomputable def coordAt (t : ℝ) (sp acc : Option ℝ) : Coordinate :=
  { latitude := 0, longitude := 0, timestamp := t, altitude := none,
    speed := sp, heading := none, accuracy := acc, altitudeAccuracy := none }

/-- Tracker options with the throttle disabled and no minimum distance. -/
noncomputable def oPlain : GPSTrackerOptions :=
  { highAccuracy := true, pauseBetweenUpdates := 0, maximumAge := none,
    timeout := none, minDistance := none, isAppleDevice := false }

/-- Tracker options with a 1000 ms throttle and no minimum distance. -/
noncomputable def oThrottled : GPSTrackerOptions :=
  { highAccuracy := true, pauseBetweenUpdates := 1000, maximumAge := none,
    timeout := none, minDistance := none, isAppleDevice := false }

/-- A fix of accuracy 20 m — worse than a putative configured 10 m
threshold, better than the hard-coded 50 m one. -/
noncomputable def pCex : Coordinate := coordAt 1000 none (some 20)

/-- A fix of accuracy 60 m, worse than the hard-coded 50 m threshold. -/
noncomputable def pBad : Coordinate := coordAt 1000 none (some 60)

/-- An accepted fix (good accuracy, no speed reading) at timestamp 0. -/
noncomputable def c0w : Coordinate := coordAt 0 none (some 5)

/-- An accepted fix at timestamp 5000. -/
noncomputable def c1w : Coordinate := coordAt 5000 none (some 5)

/-- An empty ride payload (used only as an `Option.getD` default). -/
noncomputable def anyRideData : RideData :=
  { title := "", description := "", distance := 0, duration := 0,
    startTime := 0, endTime := 0, maxSpeed := 0, avgSpeed := 0,
    userId := none, elevationGain := 0, route := [],
    startLocation := "", endLocation := "" }

/-- A local store with one uploaded and two unsynced rides. -/
noncomputable def storeW : List StoredRide :=
  [{ id := 1, isUploaded := true, data := anyRideData },
   { id := 2, isUploaded := false, data := anyRideData },
   { id := 3, isUploaded := false, data := anyRideData }]

/-- A server that accepts only the ride with id 2. -/
def okW (r : StoredRide) : Bool := r.id == 2

/-- A one-event delivery trace: an accepted fix arriving at t = 2000 ms. -/
noncomputable def esW : List (ℝ × Coordinate) := [((2000 : ℝ), c0w)]

/-- Session trace with two accepted fixes 5 s apart and no timer tick. -/
noncomputable def cexTrace : List SessionEvent := [.fix c0w, .fix c1w]

/-- Session trace with one fix and one unpaused tick. -/
noncomputable def trW : List SessionEvent := [.fix c0w, .tick]

/-- The ride payload produced at the end of `trW`. -/
noncomputable def rideTrW : RideData :=
  (MapPage.confirmStopRide (MapPage.runSession trW) 9000).getD anyRideData

/-- A session state holding one tracker coordinate. -/
noncomputable def sOneFix : SessionState :=
  { MapPage.initSession with trackerCoords := [c0w] }

/-- The ride payload produced by stopping `sOneFix`. -/
noncomputable def rideOneFix : RideData :=
  (MapPage.confirmStopRide sOneFix 0).getD anyRideData

/-- Two coordinates carrying speed readings 10 and 20 m/s. -/
noncomputable def sepCoords : List Coordinate :=
  [coordAt 0 (some 10) none, coordAt 1000 (some 20) none]

/-- A session whose distance/duration average (100 m / 4 s = 25 m/s) differs
from the per-fix speed average of `sepCoords` (15 m/s). -/
noncomputable def sepSession : SessionState :=
  { MapPage.initSession with trackerCoords := [c0w], distance := 100, duration := 4 }

/-- The ride payload produced by stopping `sepSession`. -/
noncomputable def rideSep : RideData :=
  (MapPage.confirmStopRide sepSession 0).getD anyRideData

/-- The ride payload produced at the end of `cexTrace`. -/
noncomputable def rideCex : RideData :=
  (MapPage.confirmStopRide (MapPage.runSession cexTrace) 6000).getD anyRideData

/-!  Theorems settling the claims. -/

/-- C8: `pause()` is idempotent — pausing an already-paused (or
non-tracking) tracker changes nothing further — and `pause()` immediately
followed by `resume()` preserves every previously accumulated coordinate. -/
theorem pause_idempotent_and_lossless :
    ∀ s : TrackerState,
      GPSTracker.pauseTracking (GPSTracker.pauseTracking s) = GPSTracker.pauseTracking s ∧
      (GPSTracker.resumeTracking (GPSTracker.pauseTracking s)).coordinates = s.coordinates := by
  intro s
  unfold GPSTracker.pauseTracking GPSTracker.resumeTracking
  cases h1 : s.isTracking <;> cases h2 : s.watchAttached <;> simp [h1, h2]

/-- C9: calling `startTracking()` while a session is already active returns
`false` and leaves the whole tracker state — coordinates, subscription,
running max speed — unchanged. -/
theorem start_while_active_rejected :
    ∀ (geolocationAvailable : Bool) (s : TrackerState), s.isTracking = true →
      GPSTracker.startTracking geolocationAvailable s = (s, false) := by
  intro avail s h
  unfold GPSTracker.startTracking
  rw [if_pos h]

/-- C9 witness: starting a freshly started (hence active) tracker again is
rejected and changes nothing. -/
theorem start_while_active_rejected_witness :
    GPSTracker.startTracking true GPSTracker.initTrackerState =
      (GPSTracker.initTrackerState, false) :=
  start_while_active_rejected true GPSTracker.initTrackerState rfl

/-- C2 (amended): the accuracy threshold is not configurable — the options
record has no such field — but a fix whose defined accuracy exceeds the
hard-coded threshold (100 m when the device looks like iOS, 50 m otherwise)
is never appended to the route and never triggers the update callback. -/
theorem accuracy_above_hardcoded_threshold_rejected :
    ∀ (o : GPSTrackerOptions) (ua : Bool) (now : ℝ) (s : TrackerState)
      (p : Coordinate) (acc : ℝ),
      p.accuracy = some acc →
      (if o.isAppleDevice || ua then (100 : ℝ) else 50) < acc →
      (GPSTracker.handlePositionUpdate o ua now s p).1.coordinates = s.coordinates ∧
      (GPSTracker.handlePositionUpdate o ua now s p).2 = none := by
  intro o ua now s p acc hacc hgt
  have h2 : GPSTracker.accuracyRejected o ua p := by
    unfold GPSTracker.accuracyRejected
    rw [hacc]
    exact hgt
  unfold GPSTracker.handlePositionUpdate
  by_cases hth : 0 < o.pauseBetweenUpdates ∧ now - s.lastUpdateTime < o.pauseBetweenUpdates
  · rw [if_pos hth]
    exact ⟨rfl, rfl⟩
  · rw [if_neg hth]
    dsimp only
    rw [if_pos h2]
    exact ⟨rfl, rfl⟩

/-- C2 witness: with plain options on a non-iOS device, a fix of accuracy
60 m (above the hard-coded 50 m) is not appended and emits no update. -/
theorem accuracy_above_hardcoded_threshold_rejected_witness :
    (GPSTracker.handlePositionUpdate oPlain false 1000 GPSTracker.initTrackerState
        pBad).1.coordinates = GPSTracker.initTrackerState.coordinates ∧
    (GPSTracker.handlePositionUpdate oPlain false 1000 GPSTracker.initTrackerState
        pBad).2 = none :=
  accuracy_above_hardcoded_threshold_rejected oPlain false 1000
    GPSTracker.initTrackerState pBad 60 rfl (by norm_num [oPlain])

/-- C2 counterexample: the claim as stated fails because no accuracy
threshold is configured.  A fix reporting 20 m accuracy — worse than a
putative configured threshold of 10 m — passes every filter the code
actually has (its threshold being hard-coded to 50 m here), is appended to
the route and triggers the update callback. -/
theorem accuracy_threshold_not_configured_cex :
    (10 : ℝ) < 20 ∧
    (GPSTracker.handlePositionUpdate oPlain false 1000 GPSTracker.initTrackerState
        pCex).1.coordinates = [pCex] ∧
    (GPSTracker.handlePositionUpdate oPlain false 1000 GPSTracker.initTrackerState
        pCex).2 = some pCex := by
  refine ⟨by norm_num, ?_, ?_⟩ <;>
    norm_num [GPSTracker.handlePositionUpdate, GPSTracker.accuracyRejected, GPSTracker.minDistanceRejected,
      oPlain, pCex, coordAt, GPSTracker.initTrackerState]

/-- C5: stopping a session with zero accepted fixes persists no ride to the
local store, issues no remote create request, and informs the caller that
nothing was recorded; and any persisted ride payload has a non-empty route. -/
theorem stop_without_fixes_persists_nothing :
    (∀ (s : SessionState) (now : ℝ) (isOnline remoteOk : Bool)
        (store : List StoredRide) (nextId : ℕ),
        s.trackerCoords = [] →
        MapPage.stopAndPersist s now isOnline remoteOk store nextId =
          (store, [], MapPage.StopOutcome.nothingRecorded)) ∧
    (∀ (s : SessionState) (now : ℝ) (d : RideData),
        MapPage.confirmStopRide s now = some d → d.route ≠ []) := by
  constructor
  · intro s now isOnline remoteOk store nextId h
    unfold MapPage.stopAndPersist MapPage.confirmStopRide
    rw [h]
    simp
  · intro s now d hd
    unfold MapPage.confirmStopRide at hd
    by_cases h : 0 < s.trackerCoords.length
    · rw [if_pos h] at hd
      cases hd
      simpa using List.ne_nil_of_length_pos h
    · rw [if_neg h] at hd
      simp at hd

/-- C5 witness: stopping the freshly started session (no fixes) leaves a
concrete store untouched with the "nothing recorded" outcome, and the ride
payload obtained from a one-fix session has a non-empty route. -/
theorem stop_without_fixes_persists_nothing_witness :
    MapPage.stopAndPersist MapPage.initSession 0 true true storeW 7 =
      (storeW, [], MapPage.StopOutcome.nothingRecorded) ∧
    rideOneFix.route ≠ [] :=
  ⟨stop_without_fixes_persists_nothing.1 MapPage.initSession 0 true true storeW 7 rfl,
   stop_without_fixes_persists_nothing.2 sOneFix 0 rideOneFix rfl⟩

theorem calculateDistance_append_single (ps : List Coordinate) (c : Coordinate) :
    calculateDistance (ps ++ [c]) =
      calculateDistance ps +
        (match ps.getLast? with
         | some lastCoord => calculateDistance [lastCoord, c]
         | none => 0) := by
  induction ps with
  | nil => simp [calculateDistance]
  | cons a tl ih =>
    cases tl with
    | nil => simp [calculateDistance]
    | cons b tl2 =>
      rw [List.getLast?_cons_cons]
      show haversineDistance a.latitude a.longitude b.latitude b.longitude +
          calculateDistance ((b :: tl2) ++ [c]) = _
      rw [ih, calculateDistance]
      rw [add_assoc]

/-- C7: for every route produced by a run of accepted fixes, the distance
accumulated incrementally by the MapPage position handler (adding
`calculateDistance([last, new])` per accepted fix) equals
`calculateDistance` recomputed over the whole route — the sum of the N−1
consecutive haversine distances — and the accumulated route is exactly the
accepted fixes in order (both the tracker's array and the component's). -/
theorem total_distance_eq_sum_consecutive :
    ∀ ps : List Coordinate,
      (MapPage.runSession (ps.map SessionEvent.fix)).distance = calculateDistance ps ∧
      (MapPage.runSession (ps.map SessionEvent.fix)).trackerCoords = ps ∧
      (MapPage.runSession (ps.map SessionEvent.fix)).coordinates = ps := by
  have key : ∀ ps : List Coordinate,
      (MapPage.runSession (ps.map SessionEvent.fix)).distance = calculateDistance ps ∧
      (MapPage.runSession (ps.map SessionEvent.fix)).trackerCoords = ps ∧
      (MapPage.runSession (ps.map SessionEvent.fix)).coordinates = ps ∧
      (MapPage.runSession (ps.map SessionEvent.fix)).isPaused = false := by
    intro ps
    induction ps using List.reverseRecOn with
    | nil => exact ⟨rfl, rfl, rfl, rfl⟩
    | append_singleton l a ih =>
      obtain ⟨ihd, iht, ihc, ihp⟩ := ih
      have hrun : MapPage.runSession ((l ++ [a]).map SessionEvent.fix) =
          MapPage.sessionStep (MapPage.runSession (l.map SessionEvent.fix))
            (SessionEvent.fix a) := by
        simp [MapPage.runSession, List.foldl_append]
      have hfix : MapPage.sessionStep (MapPage.runSession (l.map SessionEvent.fix))
          (SessionEvent.fix a) =
          { MapPage.runSession (l.map SessionEvent.fix) with
              trackerCoords := (MapPage.runSession (l.map SessionEvent.fix)).trackerCoords ++ [a]
              coordinates := (MapPage.runSession (l.map SessionEvent.fix)).coordinates ++ [a]
              distance :=
                match (MapPage.runSession (l.map SessionEvent.fix)).coordinates.getLast? with
                | some lastCoord =>
                    (MapPage.runSession (l.map SessionEvent.fix)).distance +
                      calculateDistance [lastCoord, a]
                | none => (MapPage.runSession (l.map SessionEvent.fix)).distance
              currentSpeed :=
                match a.speed with
                | some sp => sp
                | none => (MapPage.runSession (l.map SessionEvent.fix)).currentSpeed
              maxSpeed :=
                match a.speed with
                | some sp =>
                    if (MapPage.runSession (l.map SessionEvent.fix)).maxSpeed < sp then sp
                    else (MapPage.runSession (l.map SessionEvent.fix)).maxSpeed
                | none => (MapPage.runSession (l.map SessionEvent.fix)).maxSpeed } := by
        simp [MapPage.sessionStep, ihp]
      refine ⟨?_, ?_, ?_, ?_⟩
      · rw [hrun, hfix]
        dsimp only
        rw [ihc, ihd, calculateDistance_append_single]
        cases hl : l.getLast? <;> simp
      · rw [hrun, hfix]
        dsimp only
        rw [iht]
      · rw [hrun, hfix]
        dsimp only
        rw [ihc]
      · rw [hrun, hfix]
        dsimp only
        exact ihp
  intro ps
  exact ⟨(key ps).1, (key ps).2.1, (key ps).2.2.1⟩

theorem foldl_sessionStep_duration :
    ∀ (es : List SessionEvent) (s : SessionState),
      (es.foldl MapPage.sessionStep s).duration =
        countUnpausedTicksAux s.isPaused s.duration es := by
  intro es
  induction es with
  | nil => intro s; rfl
  | cons e tl ih =>
    intro s
    cases e with
    | tick =>
      cases hp : s.isPaused <;>
        simp [List.foldl_cons, MapPage.sessionStep, countUnpausedTicksAux, hp, ih]
    | pause =>
      simp [List.foldl_cons, MapPage.sessionStep, countUnpausedTicksAux, ih]
    | resume =>
      simp [List.foldl_cons, MapPage.sessionStep, countUnpausedTicksAux, ih]
    | fix c =>
      cases hp : s.isPaused <;>
        simp [List.foldl_cons, MapPage.sessionStep, countUnpausedTicksAux, hp, ih]

/-- C3 (amended): the duration persisted with a ride is the value of the
one-second ticking counter — the number of tick events that arrived while
the session was not paused — not the timestamp-derived value
`GPSTracker.getDuration` computes (which the stop path never consults);
the two need not agree at ride end. -/
theorem persisted_duration_is_tick_counter :
    (∀ es : List SessionEvent, (MapPage.runSession es).duration = countUnpausedTicks es) ∧
    (∀ (es : List SessionEvent) (now : ℝ) (d : RideData),
        MapPage.confirmStopRide (MapPage.runSession es) now = some d →
        d.duration = countUnpausedTicks es) := by
  have h1 : ∀ es : List SessionEvent,
      (MapPage.runSession es).duration = countUnpausedTicks es := by
    intro es
    unfold MapPage.runSession countUnpausedTicks
    rw [foldl_sessionStep_duration]
    rfl
  refine ⟨h1, ?_⟩
  intro es now d hd
  unfold MapPage.confirmStopRide at hd
  by_cases h : 0 < (MapPage.runSession es).trackerCoords.length
  · rw [if_pos h] at hd
    cases hd
    exact h1 es
  · rw [if_neg h] at hd
    exact Option.noConfusion hd

/-- C3 witness: at the end of the one-fix one-tick trace `trW`, the
persisted duration equals the unpaused tick count. -/
theorem persisted_duration_is_tick_counter_witness :
    rideTrW.duration = countUnpausedTicks trW :=
  persisted_duration_is_tick_counter.2 trW 9000 rideTrW rfl

/-- C3 counterexample: after two accepted fixes 5 s apart with no timer
tick, the persisted duration is 0 while the timestamp-derived duration
(`floor((last − first)/1000)`) is 5 — the claimed equality fails. -/
theorem persisted_duration_cex :
    (MapPage.confirmStopRide (MapPage.runSession cexTrace) 6000).map
        (fun d => (d.duration : ℤ)) = some 0 ∧
    GPSTracker.getDuration (MapPage.runSession cexTrace).trackerCoords = 5 ∧
    (0 : ℤ) ≠ 5 := by
  refine ⟨rfl, ?_, by decide⟩
  show (⌊(((5000 : ℝ) - 0) / 1000 : ℝ)⌋ : ℤ) = 5
  rw [show ((5000 : ℝ) - 0) / 1000 = ((5 : ℤ) : ℝ) by norm_num]
  exact Int.floor_intCast 5

theorem mapFilterSpeed (coords : List Coordinate) :
    (((coords.map fun c => c.speed).filter fun sp => sp.isSome).map fun sp => sp.getD 0) =
      coords.filterMap fun c => c.speed := by
  induction coords with
  | nil => rfl
  | cons a tl ih => cases ha : a.speed <;> simp [ha, ih]

theorem getAverageSpeed_eq (coords : List Coordinate) :
    GPSTracker.getAverageSpeed coords =
      if (coords.filterMap fun c => c.speed).length = 0 then 0
      else (coords.filterMap fun c => c.speed).sum /
        ((coords.filterMap fun c => c.speed).length : ℝ) := by
  unfold GPSTracker.getAverageSpeed
  dsimp only
  rw [mapFilterSpeed, ← List.sum_eq_foldl]

/-- C10: `getAverageSpeed` returns 0 when no coordinate carries a
non-null/non-undefined speed, and otherwise the arithmetic mean of the
per-fix speed readings; the persisted ride record instead carries
`distance / max(duration, 1)`, a different policy, and on a concrete
session the two averages differ (15 m/s versus 25 m/s). -/
theorem getAverageSpeed_per_fix_mean :
    (∀ coords : List Coordinate,
        (coords.filterMap fun c => c.speed) = [] →
        GPSTracker.getAverageSpeed coords = 0) ∧
    (∀ coords : List Coordinate,
        (coords.filterMap fun c => c.speed) ≠ [] →
        GPSTracker.getAverageSpeed coords =
          (coords.filterMap fun c => c.speed).sum /
            ((coords.filterMap fun c => c.speed).length : ℝ)) ∧
    (∀ (s : SessionState) (now : ℝ) (d : RideData),
        MapPage.confirmStopRide s now = some d →
        d.avgSpeed = s.distance / (if 0 < s.duration then (s.duration : ℝ) else 1)) ∧
    (GPSTracker.getAverageSpeed sepCoords = 15 ∧
      (MapPage.confirmStopRide sepSession 0).map (fun d => d.avgSpeed) = some 25 ∧
      (15 : ℝ) ≠ 25) := by
  refine ⟨?_, ?_, ?_, ?_, ?_, by norm_num⟩
  · intro coords h
    rw [getAverageSpeed_eq, h]
    simp
  · intro coords h
    rw [getAverageSpeed_eq, if_neg (by simpa [List.length_eq_zero] using h)]
  · intro s now d hd
    unfold MapPage.confirmStopRide at hd
    by_cases h : 0 < s.trackerCoords.length
    · rw [if_pos h] at hd
      cases hd
      rfl
    · rw [if_neg h] at hd
      exact Option.noConfusion hd
  · have hfm : sepCoords.filterMap (fun c => c.speed) = [10, 20] := rfl
    rw [getAverageSpeed_eq, hfm]
    norm_num [List.sum_cons, List.sum_nil]
  · norm_num [MapPage.confirmStopRide, sepSession, MapPage.initSession]

/-- C10 witness: the mean policy applied to concrete routes, and the
persisted average of a concrete session. -/
theorem getAverageSpeed_per_fix_mean_witness :
    GPSTracker.getAverageSpeed [c0w] = 0 ∧
    GPSTracker.getAverageSpeed sepCoords =
      (sepCoords.filterMap fun c => c.speed).sum /
        ((sepCoords.filterMap fun c => c.speed).length : ℝ) ∧
    rideSep.avgSpeed = sepSession.distance /
      (if 0 < sepSession.duration then (sepSession.duration : ℝ) else 1) :=
  ⟨getAverageSpeed_per_fix_mean.1 [c0w] rfl,
   getAverageSpeed_per_fix_mean.2.1 sepCoords (by simp [sepCoords, coordAt]),
   getAverageSpeed_per_fix_mean.2.2.1 sepSession 0 rideSep rfl⟩

theorem handlePositionUpdate_shape (o : GPSTrackerOptions) (ua : Bool) (now : ℝ)
    (s : TrackerState) (p : Coordinate) :
    GPSTracker.handlePositionUpdate o ua now s p = (s, none) ∨
    (GPSTracker.handlePositionUpdate o ua now s p).1.lastUpdateTime = now := by
  unfold GPSTracker.handlePositionUpdate
  by_cases h1 : 0 < o.pauseBetweenUpdates ∧ now - s.lastUpdateTime < o.pauseBetweenUpdates
  · rw [if_pos h1]
    exact Or.inl rfl
  · rw [if_neg h1]
    right
    dsimp only
    by_cases h2 : GPSTracker.accuracyRejected o ua p
    · rw [if_pos h2]
    · rw [if_neg h2]
      by_cases h3 : GPSTracker.minDistanceRejected o s.coordinates p
      · rw [if_pos h3]
      · rw [if_neg h3]
        cases hsp : p.speed with
        | none => simp [hsp]
        | some sp =>
          simp only [hsp]
          split <;> rfl

theorem handlePositionUpdate_throttled (o : GPSTrackerOptions) (ua : Bool) (now : ℝ)
    (s : TrackerState) (p : Coordinate)
    (hpos : 0 < o.pauseBetweenUpdates)
    (hlt : now - s.lastUpdateTime < o.pauseBetweenUpdates) :
    GPSTracker.handlePositionUpdate o ua now s p = (s, none) := by
  unfold GPSTracker.handlePositionUpdate
  rw [if_pos ⟨hpos, hlt⟩]

theorem runTrackerFrom_lastUpdate_mono (o : GPSTrackerOptions) (ua : Bool) :
    ∀ (es : List (ℝ × Coordinate)) (s : TrackerState),
      es.Pairwise (fun e1 e2 => e1.1 ≤ e2.1) →
      (∀ e ∈ es, s.lastUpdateTime ≤ e.1) →
      s.lastUpdateTime ≤ (runTrackerFrom o ua s es).1.lastUpdateTime := by
  intro es
  induction es with
  | nil =>
    intro s _ _
    exact le_refl _
  | cons e tl ih =>
    intro s hp hle
    obtain ⟨t, c⟩ := e
    show s.lastUpdateTime ≤
      (runTrackerFrom o ua (GPSTracker.handlePositionUpdate o ua t s c).1 tl).1.lastUpdateTime
    rcases handlePositionUpdate_shape o ua t s c with hsh | hsh
    · rw [hsh]
      exact ih s hp.of_cons fun e he => hle e (List.mem_cons_of_mem _ he)
    · have hst : s.lastUpdateTime ≤ t := hle (t, c) (List.mem_cons_self _ _)
      have h2 : ∀ e ∈ tl, (GPSTracker.handlePositionUpdate o ua t s c).1.lastUpdateTime ≤ e.1 := by
        intro e he
        rw [hsh]
        exact (List.pairwise_cons.mp hp).1 e he
      calc s.lastUpdateTime ≤ t := hst
        _ = (GPSTracker.handlePositionUpdate o ua t s c).1.lastUpdateTime := hsh.symm
        _ ≤ _ := ih _ hp.of_cons h2

theorem runTrackerFrom_accepted_le (o : GPSTrackerOptions) (ua : Bool) :
    ∀ (es : List (ℝ × Coordinate)) (s : TrackerState),
      es.Pairwise (fun e1 e2 => e1.1 ≤ e2.1) →
      ∀ q ∈ (runTrackerFrom o ua s es).2,
        q.1 ≤ (runTrackerFrom o ua s es).1.lastUpdateTime := by
  intro es
  induction es with
  | nil =>
    intro s _ q hq
    exact absurd hq (List.not_mem_nil q)
  | cons e tl ih =>
    intro s hp q hq
    obtain ⟨t, c⟩ := e
    rcases List.mem_append.mp hq with hq1 | hq2
    · rcases hsh : (GPSTracker.handlePositionUpdate o ua t s c).2 with _ | c2
      · rw [hsh] at hq1
        exact absurd hq1 (List.not_mem_nil q)
      · rw [hsh] at hq1
        have hq' : q = (t, c2) := by simpa using hq1
        subst hq'
        have hproc : (GPSTracker.handlePositionUpdate o ua t s c).1.lastUpdateTime = t := by
          rcases handlePositionUpdate_shape o ua t s c with h | h
          · rw [h] at hsh
            exact Option.noConfusion hsh
          · exact h
        show t ≤ (runTrackerFrom o ua (GPSTracker.handlePositionUpdate o ua t s c).1 tl).1.lastUpdateTime
        calc (t : ℝ)
            = (GPSTracker.handlePositionUpdate o ua t s c).1.lastUpdateTime := hproc.symm
          _ ≤ _ := by
              apply runTrackerFrom_lastUpdate_mono o ua tl _ hp.of_cons
              intro e he
              rw [hproc]
              exact (List.pairwise_cons.mp hp).1 e he
    · exact ih _ hp.of_cons q hq2

theorem runTrackerFrom_append (o : GPSTrackerOptions) (ua : Bool) :
    ∀ (es es2 : List (ℝ × Coordinate)) (s : TrackerState),
      runTrackerFrom o ua s (es ++ es2) =
        ((runTrackerFrom o ua (runTrackerFrom o ua s es).1 es2).1,
          (runTrackerFrom o ua s es).2 ++
            (runTrackerFrom o ua (runTrackerFrom o ua s es).1 es2).2) := by
  intro es
  induction es with
  | nil =>
    intro es2 s
    simp [runTrackerFrom]
  | cons e tl ih =>
    intro es2 s
    obtain ⟨t, c⟩ := e
    simp only [List.cons_append, runTrackerFrom, List.append_eq, ih, List.append_assoc]

/-- C4: when the throttle is enabled, a fix arriving less than
`pauseBetweenUpdates` ms after the arrival of the previous accepted fix is
rejected whole — neither the tracker state nor the emitted-update list
changes — regardless of the fix's accuracy, speed or distance moved (the
code throttles against `lastUpdateTime`, the arrival time of the last
non-throttled fix, which is at least the arrival time of the last accepted
fix on any time-ordered trace). -/
theorem fix_within_min_interval_rejected (o : GPSTrackerOptions) (ua : Bool)
    (es : List (ℝ × Coordinate)) (now : ℝ) (p : Coordinate) (ta : ℝ) (ca : Coordinate)
    (hpos : 0 < o.pauseBetweenUpdates)
    (hm : es.Pairwise (fun e1 e2 => e1.1 ≤ e2.1))
    (hlast : (runTracker o ua es).2.getLast? = some (ta, ca))
    (hth : now - ta < o.pauseBetweenUpdates) :
    runTracker o ua (es ++ [(now, p)]) = runTracker o ua es := by
  have hmem : (ta, ca) ∈ (runTracker o ua es).2 := List.mem_of_mem_getLast? hlast
  have hta : ta ≤ (runTracker o ua es).1.lastUpdateTime :=
    runTrackerFrom_accepted_le o ua es GPSTracker.initTrackerState hm (ta, ca) hmem
  have hthr : now - (runTracker o ua es).1.lastUpdateTime < o.pauseBetweenUpdates :=
    lt_of_le_of_lt (by linarith) hth
  have hstep : GPSTracker.handlePositionUpdate o ua now (runTracker o ua es).1 p =
      ((runTracker o ua es).1, none) :=
    handlePositionUpdate_throttled o ua now (runTracker o ua es).1 p hpos hthr
  have hsingle : runTrackerFrom o ua (runTracker o ua es).1 [(now, p)] =
      ((runTracker o ua es).1, []) := by
    simp [runTrackerFrom, hstep]
  have happ : runTracker o ua (es ++ [(now, p)]) =
      ((runTrackerFrom o ua (runTracker o ua es).1 [(now, p)]).1,
        (runTracker o ua es).2 ++
          (runTrackerFrom o ua (runTracker o ua es).1 [(now, p)]).2) :=
    runTrackerFrom_append o ua es [(now, p)] GPSTracker.initTrackerState
  rw [happ, hsingle]
  simp

/-- C4 witness: with a 1000 ms throttle, a fix arriving 500 ms after the
accepted fix at t = 2000 changes nothing. -/
theorem fix_within_min_interval_rejected_witness :
    runTracker oThrottled false (esW ++ [((2500 : ℝ), c1w)]) =
      runTracker oThrottled false esW :=
  fix_within_min_interval_rejected oThrottled false esW 2500 c1w 2000 c0w
    (by norm_num [oThrottled])
    (by simp [esW])
    (by norm_num [runTracker, runTrackerFrom, GPSTracker.handlePositionUpdate,
      GPSTracker.accuracyRejected, GPSTracker.minDistanceRejected, GPSTracker.initTrackerState,
      oThrottled, esW, c0w, coordAt])
    (by norm_num [oThrottled])

theorem markRideAsUploaded_eq_map (id : ℕ) (store : List StoredRide)
    (hN : (store.map StoredRide.id).Nodup) :
    markRideAsUploaded id store =
      store.map fun r => if r.id == id then { r with isUploaded := true } else r := by
  unfold markRideAsUploaded getRideById
  cases hf : store.find? (fun r => r.id == id) with
  | none =>
    have hnone : ∀ r ∈ store, ¬((r.id == id) = true) := by
      intro r hr
      have := List.find?_eq_none.mp hf r hr
      simpa using this
    have hmap : store.map (fun r => if r.id == id then { r with isUploaded := true } else r) =
        store.map (fun r => r) := by
      apply List.map_congr_left
      intro r hr
      rw [if_neg (hnone r hr)]
    rw [hmap, List.map_id']
  | some r0 =>
    have hr0mem : r0 ∈ store := List.mem_of_find?_eq_some hf
    have hr0id := List.find?_some hf
    have hr0id' : r0.id = id := by simpa using hr0id
    unfold updateRide
    apply List.map_congr_left
    intro x hx
    by_cases hxid : (x.id == id) = true
    · have hxid' : x.id = id := by simpa using hxid
      have hx0 : x = r0 :=
        List.inj_on_of_nodup_map hN hx hr0mem (by rw [hxid', hr0id'])
      subst hx0
      simp [hxid]
    · have hxid' : ¬x.id = id := by simpa using hxid
      simp [hr0id', hxid, hxid']

theorem foldl_mark_eq_map (ok : StoredRide → Bool) :
    ∀ (ps store : List StoredRide),
      (store.map StoredRide.id).Nodup →
      ps.foldl (fun st r => if ok r then markRideAsUploaded r.id st else st) store =
        store.map fun x =>
          if x.id ∈ (ps.filter ok).map StoredRide.id then { x with isUploaded := true }
          else x := by
  intro ps
  induction ps with
  | nil =>
    intro store hN
    simp
  | cons p ps ih =>
    intro store hN
    rw [List.foldl_cons]
    by_cases hok : ok p = true
    · rw [if_pos hok, markRideAsUploaded_eq_map p.id store hN]
      have hids : ((store.map fun x =>
          if x.id == p.id then { x with isUploaded := true } else x).map StoredRide.id) =
          store.map StoredRide.id := by
        rw [List.map_map]
        apply List.map_congr_left
        intro x hx
        by_cases h : (x.id == p.id) = true <;> simp [Function.comp, h]
      rw [ih _ (by rw [hids]; exact hN), List.map_map]
      apply List.map_congr_left
      intro x hx
      simp only [Function.comp, List.filter_cons, hok, if_true, List.map_cons, List.mem_cons]
      by_cases hxp : (x.id == p.id) = true
      · have hxp' : x.id = p.id := by simpa using hxp
        rw [if_pos hxp]
        by_cases hmem : x.id ∈ (ps.filter ok).map StoredRide.id
        · rw [if_pos (by simpa using hmem), if_pos (Or.inr hmem)]
        · rw [if_neg (by simpa using hmem), if_pos (Or.inl hxp')]
      · have hxp' : ¬x.id = p.id := by simpa using hxp
        rw [if_neg hxp]
        by_cases hmem : x.id ∈ (ps.filter ok).map StoredRide.id
        · rw [if_pos hmem, if_pos (Or.inr hmem)]
        · rw [if_neg hmem, if_neg (by
            intro h
            rcases h with h | h
            · exact hxp' h
            · exact hmem h)]
    · rw [if_neg hok, ih store hN]
      apply List.map_congr_left
      intro x hx
      have hfc : (p :: ps).filter ok = ps.filter ok := by
        simp [List.filter_cons, hok]
      rw [hfc]

/-- C1: a sweep of `syncOfflineRides` over a store with distinct ride ids
issues exactly one create request per ride with `isUploaded = false` (the
request list is precisely the unsynced rides' payloads, in store order),
marks exactly the rides whose request succeeds as uploaded, leaves each
failed ride unmarked for the next sweep, and one ride's failure does not
affect any other ride's outcome (the final store is a pointwise map). -/
theorem syncOfflineRides_marks_each_unsynced (ok : StoredRide → Bool)
    (store : List StoredRide) (hN : (store.map StoredRide.id).Nodup) :
    (syncOfflineRides ok store).1 =
      store.map (fun r =>
        if (!r.isUploaded && ok r) = true then { r with isUploaded := true } else r) ∧
    (syncOfflineRides ok store).2 = (getNotUploadedRides store).map (fun r => r.data) := by
  refine ⟨?_, rfl⟩
  show (getNotUploadedRides store).foldl
      (fun st r => if ok r then markRideAsUploaded r.id st else st) store = _
  rw [foldl_mark_eq_map ok (getNotUploadedRides store) store hN]
  apply List.map_congr_left
  intro x hx
  by_cases hmem : x.id ∈ (((getNotUploadedRides store).filter ok).map StoredRide.id)
  · rw [if_pos hmem]
    obtain ⟨y, hy, hyid⟩ := List.mem_map.mp hmem
    have hyf := List.mem_filter.mp hy
    have hyp := List.mem_filter.mp (show y ∈ store.filter (fun r => !r.isUploaded) from hyf.1)
    have hxy : y = x := List.inj_on_of_nodup_map hN hyp.1 hx hyid
    rw [if_pos (by
      rw [← hxy]
      simp [hyp.2, hyf.2])]
  · rw [if_neg hmem]
    by_cases hx2 : (!x.isUploaded && ok x) = true
    · exfalso
      apply hmem
      obtain ⟨ha, hb⟩ : (!x.isUploaded) = true ∧ ok x = true := by simpa using hx2
      have h1 : x ∈ getNotUploadedRides store := List.mem_filter.mpr ⟨hx, ha⟩
      have h2 : x ∈ (getNotUploadedRides store).filter ok := List.mem_filter.mpr ⟨h1, hb⟩
      exact List.mem_map.mpr ⟨x, h2, rfl⟩
    · rw [if_neg hx2]

/-- C1 witness: on a store with one uploaded and two unsynced rides and a
server accepting only ride 2, the sweep requests both unsynced payloads,
marks ride 2 uploaded, and leaves ride 3 unmarked. -/
theorem syncOfflineRides_marks_each_unsynced_witness :
    (syncOfflineRides okW storeW).1 =
      storeW.map (fun r =>
        if (!r.isUploaded && okW r) = true then { r with isUploaded := true } else r) ∧
    (syncOfflineRides okW storeW).2 = (getNotUploadedRides storeW).map (fun r => r.data) :=
  syncOfflineRides_marks_each_unsynced okW storeW (by decide)

end RideApp
